import Mathlib

/-!
Verification of the browser-automation engine (mcp_server.py / minimal_client.py).

The in-page JavaScript (classifier `MCPIsVisible` / `MCPIsClickable`, locator
synthesizer `MCPGetSelector`, the enumerator scans, and the fill-path
fillability check) is shallowly embedded as pure Lean functions over a
snapshot of a DOM element.  Browser primitives that are external to the
repository (CSS.escape, the JS regular-expression engine, getBoundingClientRect,
elementFromPoint, querySelector, localeCompare) are modelled either as
function parameters (`esc`, `rx`) or as observation fields on the element
snapshot; everything else is translated statement-by-statement from the source.
-/

/-- JS `a || b` for a nullable string `a`: `null`/`undefined` and the empty
string are falsy. -/
def jsOr (a : Option String) (b : String) : String :=
  match a with
  | some s => if s = "" then b else s
  | none => b

/-- JS `a || b` for a plain string `a`: the empty string is falsy. -/
def jsOrStr (a : String) (b : String) : String :=
  if a = "" then b else a

/-- JS string trim (whitespace stripped from both ends), implemented
structurally over the character list so that concrete evaluations reduce. -/
def jsTrim (s : String) : String :=
  String.mk (((s.data.dropWhile Char.isWhitespace).reverse.dropWhile
    Char.isWhitespace).reverse)

/-- Character-list split on a separator predicate: one group per maximal
separator-free stretch, with empty groups at separators (like JS split on a
single-character separator class). -/
def splitChars (p : Char → Bool) : List Char → List (List Char)
  | [] => [[]]
  | c :: rest =>
    let r := splitChars p rest
    if p c then [] :: r
    else
      match r with
      | [] => [[c]]
      | g :: gs => (c :: g) :: gs

/-- JS prefix test (String.prototype.startsWith), structurally over the
character lists. -/
def jsStartsWith (p s : String) : Bool :=
  p.data.isPrefixOf s.data

/-- JS `s.substring(0, n)`: the first `n` characters. -/
def jsTake (s : String) (n : Nat) : String :=
  String.mk (s.data.take n)

/-- JS `s.replace(/"/g, ...)` as used for the has-text selector: every double
quote becomes a backslash-quote pair. -/
def jsEscapeQuotes (s : String) : String :=
  String.mk (s.data.foldr
    (fun c acc => if c = '"' then '\\' :: '"' :: acc else c :: acc) [])

/-- JS toLowerCase, structurally over the character list. -/
def jsToLower (s : String) : String :=
  String.mk (s.data.map Char.toLower)

/-- JS `key.replace(/([A-Z])/g, "-$1").toLowerCase()` from the dataset branch
of `MCPGetSelector`: every uppercase letter is prefixed with `-`, then the
whole string is lowercased. -/
def camelToKebab (s : String) : String :=
  String.mk (s.data.foldr
    (fun c acc => if c.isUpper then '-' :: c.toLower :: acc else c.toLower :: acc) [])

/-- JS `s.trim().split(/\s+/)` as used on class lists: on a string whose trim
is empty JS yields `[""]`; otherwise the trimmed string is split on maximal
whitespace runs (no empty components remain because the string was trimmed). -/
def jsTrimSplitWs (s : String) : List String :=
  let t := jsTrim s
  if t = "" then [""]
  else ((splitChars Char.isWhitespace t.data).map String.mk).filter (fun c => c ≠ "")

/-- JS split on a single space, first field: everything before the first
space (the whole string if there is no space; `""` for the empty string). -/
def jsFirstSpaceField (s : String) : String :=
  String.mk (s.data.takeWhile (fun c => c ≠ ' '))

/-- The utility-class prefix denylist from `MCPGetSelector`
(`/^(d-|p-|m-|text-|bg-|border-|flex-|position-|w-|h-|col-|row-|btn-|nav-)/`). -/
def utilityPrefixes : List String :=
  ["d-", "p-", "m-", "text-", "bg-", "border-", "flex-", "position-",
   "w-", "h-", "col-", "row-", "btn-", "nav-"]

/-- Whether a class name matches the utility-prefix regex (an anchored
prefix alternation, so it is exactly a prefix test). -/
def isUtilityClass (c : String) : Bool :=
  utilityPrefixes.any (fun p => jsStartsWith p c)

/-- JS `classes.filter(c => c.length > 2 && !c.match(...)).sort((a,b) => b.length - a.length)[0]`:
the earliest class of maximal length (JS sort is stable, descending by length). -/
def pickLongest : List String → String
  | [] => ""
  | c :: cs => cs.foldl (fun best x => if x.length > best.length then x else best) c

/-- Snapshot of the window metrics consulted by the in-page predicates. -/
structure Window where
  innerWidth : Int
  innerHeight : Int
deriving Repr, DecidableEq

/-- Snapshot of an option child of a select element, as read by the form
enumerator. -/
structure OptEl where
  value : String
  textContent : Option String
deriving Repr, DecidableEq

/-- The parent data consulted by the positional fallback of `MCPGetSelector`:
`parent.id`, `parent.className`, `parent.tagName`, and the same-tag sibling
census (`siblings.length` and the 0-based index of the element among them). -/
structure ParentInfo where
  id : String
  className : String
  tagName : String
  sameTagSiblingCount : Nat
  sameTagIndex : Nat
deriving Repr, DecidableEq

/-- Snapshot of one live DOM element: every attribute, property, layout and
hit-test observation that the embedded in-page functions read.  `Option`
fields model JS `null`/`undefined` (`className = none` models a non-string
`className`, e.g. on SVG elements; `labelForEl`/`parentLabelEl`/`closestForm`
model the results of the corresponding document queries). -/
structure Element where
  tagName : String
  id : String
  dataset : List (String × String)
  className : Option String
  nameAttr : String
  jsType : Option String
  hrefAttr : Option String
  hrefProp : Option String
  textContent : Option String
  valueProp : String
  placeholder : String
  ariaLabel : Option String
  titleAttr : Option String
  altAttr : Option String
  dataLabel : Option String
  required : Bool
  maxLength : Int
  disabled : Bool
  readOnly : Bool
  contentEditable : String
  onclick : Bool
  onmousedown : Bool
  onmouseup : Bool
  role : Option String
  rectW : Int
  rectH : Int
  rectTop : Int
  rectBottom : Int
  rectLeft : Int
  rectRight : Int
  visibility : String
  display : String
  opacity : String
  topElemExists : Bool
  topElemIsSelf : Bool
  selfContainsTop : Bool
  topContainsSelf : Bool
  labelForEl : Option (Option String)
  parentLabelEl : Option (Option String)
  closestForm : Option (String × String)
  options : List OptEl
  parent : Option ParentInfo
deriving Repr, DecidableEq

/-- A default element snapshot (all attributes absent, zero-size box) used to
build concrete test elements by field update. -/
def blankElement : Element where
  tagName := "DIV"
  id := ""
  dataset := []
  className := some ""
  nameAttr := ""
  jsType := none
  hrefAttr := none
  hrefProp := none
  textContent := none
  valueProp := ""
  placeholder := ""
  ariaLabel := none
  titleAttr := none
  altAttr := none
  dataLabel := none
  required := false
  maxLength := -1
  disabled := false
  readOnly := false
  contentEditable := "inherit"
  onclick := false
  onmousedown := false
  onmouseup := false
  role := none
  rectW := 0
  rectH := 0
  rectTop := 0
  rectBottom := 0
  rectLeft := 0
  rectRight := 0
  visibility := "visible"
  display := "block"
  opacity := "1"
  topElemExists := false
  topElemIsSelf := false
  selfContainsTop := false
  topContainsSelf := false
  labelForEl := none
  parentLabelEl := none
  closestForm := none
  options := []
  parent := none

/-- The locator strategies of `window.MCPGetSelector` after the id and data
branches (classes, name, type, href, text, positional, bare tag). -/
def MCPGetSelectorAfterData (esc : String → String) (el : Element) : String :=
  -- meaningful class names: `if (el.className && typeof el.className === "string")`
  let classBranch : Option String :=
    match el.className with
    | some c =>
      if c = "" then none
      else
        let classes := jsTrimSplitWs c
        let meaningful := classes.filter
          (fun k => k.length > 2 ∧ ¬ isUtilityClass k)
        if meaningful ≠ [] then some ("." ++ esc (pickLongest meaningful))
        else if classes ≠ [] then some ("." ++ esc (classes.headD ""))
        else none
    | none => none
  match classBranch with
  | some s => s
  | none =>
    -- name attribute
    if el.nameAttr ≠ "" ∧ jsTrim el.nameAttr ≠ "" then
      "[name=\"" ++ esc el.nameAttr ++ "\"]"
    -- `if (el.tagName === "INPUT" && el.type)` — note: NOT escaped in the source
    else if el.tagName = "INPUT" ∧ (jsOr el.jsType "") ≠ "" then
      "input[type=\"" ++ jsOr el.jsType "" ++ "\"]"
    else
      -- href for anchors, only if short
      let hrefBranch : Option String :=
        if el.tagName = "A" then
          match el.hrefAttr with
          | some h =>
            if h ≠ "" ∧ jsTrim h ≠ "" ∧ h.length < 100 then
              some ("a[href=\"" ++ esc h ++ "\"]")
            else none
          | none => none
        else none
      match hrefBranch with
      | some s => s
      | none =>
        -- short text content: `${tag}:has-text("${escapedText}")`
        let tc := (el.textContent.map jsTrim).getD ""
        if tc ≠ "" ∧ tc.length < 30 then
          jsToLower el.tagName ++ ":has-text(\"" ++ jsEscapeQuotes tc ++ "\")"
        else
          -- positional nth-child fallback
          match el.parent with
          | some p =>
            if p.sameTagSiblingCount > 1 then
              let parentSelector :=
                if p.id ≠ "" then "#" ++ esc p.id
                else if p.className ≠ "" then
                  "." ++ esc (jsFirstSpaceField p.className)
                else jsToLower p.tagName
              parentSelector ++ " > " ++ jsToLower el.tagName ++ ":nth-child(" ++
                toString (p.sameTagIndex + 1) ++ ")"
            else jsToLower el.tagName
          | none => jsToLower el.tagName

/-- Embedding of `window.MCPGetSelector` (mcp_server.py, injected by
`BrowserSession.start`): deterministic locator synthesis, first match wins.
`esc` abstracts the browser primitive `CSS.escape`. -/
def MCPGetSelector (esc : String → String) (el : Element) : String :=
  -- Try ID first (most reliable): `if (el.id && el.id.trim()) return "#" + CSS.escape(el.id);`
  if el.id ≠ "" ∧ jsTrim el.id ≠ "" then "#" ++ esc el.id
  else
    -- data attributes: only the FIRST dataset key is examined
    match el.dataset with
    | (firstKey, value) :: _ =>
      if value ≠ "" ∧ jsTrim value ≠ "" then
        "[data-" ++ camelToKebab firstKey ++ "=\"" ++ esc value ++ "\"]"
      else MCPGetSelectorAfterData esc el
    | [] => MCPGetSelectorAfterData esc el

/-- Embedding of `window.MCPIsVisible` (mcp_server.py): positive box, style
visible, in-viewport, and the point-based occlusion check.  The `!el` guard of
the source cannot fire here because the model always holds an element
snapshot. -/
def MCPIsVisible (w : Window) (el : Element) : Bool :=
  if el.rectW ≤ 0 ∨ el.rectH ≤ 0 then false
  else if el.visibility = "hidden" then false
  else if el.display = "none" then false
  else if el.opacity = "0" then false
  else if el.rectBottom < 0 ∨ el.rectTop > w.innerHeight then false
  else if el.rectRight < 0 ∨ el.rectLeft > w.innerWidth then false
  else el.topElemIsSelf || el.selfContainsTop || (el.topElemExists && el.topContainsSelf)

/-- Embedding of `window.MCPIsClickable` (mcp_server.py).  `rx` abstracts the JS regex
primitive `s.match(/\b(btn|button|link|clickable|click)\b/i)`.  A non-string
`className` (`none`) is modelled as no class match (the source would throw a
TypeError there; the classifier is only exercised on HTML elements, whose
`className` is a string). -/
def MCPIsClickable (w : Window) (rx : String → Bool) (el : Element) : Bool :=
  if ¬ MCPIsVisible w el then false
  else
    let tagName := jsToLower el.tagName
    let hasClickHandler := el.onclick || el.onmousedown || el.onmouseup
    let isClickableRole :=
      match el.role with
      | some r => if r = "" then false else ["button", "link", "tab", "menuitem", "option"].contains r
      | none => false
    let isClickableTag := ["a", "button", "input", "select", "textarea"].contains tagName
    let hasClickableClass :=
      match el.className with
      | some c => if c = "" then false else rx c
      | none => false
    isClickableTag || hasClickHandler || isClickableRole || hasClickableClass

/-- Result record of the fillability check evaluated in `fill_enhanced`
(mcp_server.py).  The element-not-found early return of the source
(fillable false, reason "Element not found") is outside this model, which
takes an element snapshot. -/
structure FillCheck where
  fillable : Bool
  visible : Bool
  disabled : Bool
  tagName : String
  type : String
  contentEditable : Bool
  reason : String
deriving Repr, DecidableEq

/-- The fillability classifier evaluated in page context by `fill_enhanced`:
`fillable = visible && isFillable && !disabled` with
`isFillable = (input with text-like type) || textarea || contentEditable`. -/
def fillEval (el : Element) : FillCheck :=
  let tagName := jsToLower el.tagName
  let inputType := jsOr el.jsType "text"
  let isContentEditable := el.contentEditable = "true"
  let visible := el.rectW > 0 && el.rectH > 0 &&
    el.visibility ≠ "hidden" && el.display ≠ "none"
  let fillableTypes := ["text", "email", "password", "search", "tel", "url",
    "number", "date", "time", "datetime-local", "month", "week"]
  let isFillable := (tagName = "input" && fillableTypes.contains inputType) ||
    tagName = "textarea" || isContentEditable
  let disabled := el.disabled || el.readOnly
  { fillable := visible && isFillable && !disabled
    visible := visible
    disabled := disabled
    tagName := tagName
    type := inputType
    contentEditable := isContentEditable
    reason :=
      if ¬ visible then "Not visible"
      else if ¬ isFillable then "Not fillable element"
      else if disabled then "Disabled or readonly"
      else "OK" }

/-- The per-element visibility test inside the element-count evaluation of
`get_page_info` (mcp_server.py): positive box, visibility not "hidden",
display not "none" — and nothing else. -/
def pageInfoVisible (el : Element) : Bool :=
  el.rectW > 0 && el.rectH > 0 && el.visibility ≠ "hidden" && el.display ≠ "none"

/-- One rung of the click strategy ladder of `BrowserSession.click`
(mcp_server.py): locator resolution, the in-page clickability check, the
scroll-and-recheck step, the direct click, and the force click of the
exception handler. -/
inductive ClickStep where
  | resolve
  | checkClickable
  | scrollRecheck
  | directClick
  | forceClick
deriving Repr, DecidableEq

/-- The canonical forward order of the click ladder. -/
def clickLadder : List ClickStep :=
  [ClickStep.resolve, ClickStep.checkClickable, ClickStep.scrollRecheck,
   ClickStep.directClick, ClickStep.forceClick]

/-- Behaviour of the live page during one `BrowserSession.click` call: which
primitives throw, whether the locator resolves, and what the two in-page
clickability evaluations report.  The first evaluation returns a record of
which only the `clickable` flag is consumed (via `.get`); the recheck after
scrolling returns a plain boolean. -/
structure ClickEnv where
  queryThrows : Bool
  queryErr : String
  queryResult : Option Unit
  check1Throws : Bool
  check1Err : String
  check1Clickable : Bool
  scrollThrows : Bool
  scrollErr : String
  check2Throws : Bool
  check2Err : String
  check2 : Bool
  directThrows : Bool
  directErr : String
  forceThrows : Bool
deriving Repr, DecidableEq

/-- The last-resort branch of the outer exception handler of
`BrowserSession.click`: one force click; on a second failure the reported
error message carries the ORIGINAL exception text `firstErr`. -/
def clickForcePath (env : ClickEnv) (sel : String) (firstErr : String)
    (tr : List ClickStep) : String × List ClickStep :=
  if env.forceThrows then
    ("Error clicking " ++ sel ++ ": " ++ firstErr, tr ++ [ClickStep.forceClick])
  else
    ("Force-clicked on " ++ sel ++ " (element might not have been fully visible)",
     tr ++ [ClickStep.forceClick])

/-- The direct `page.click` attempt; a throw falls into the force-click
exception handler. -/
def clickDirectPath (env : ClickEnv) (sel : String)
    (tr : List ClickStep) : String × List ClickStep :=
  if env.directThrows then
    clickForcePath env sel env.directErr (tr ++ [ClickStep.directClick])
  else
    ("Clicked on " ++ sel, tr ++ [ClickStep.directClick])

/-- Embedding of the body of `BrowserSession.click` (mcp_server.py) on a live
page, returning the outcome message together with the trace of ladder steps
attempted.  Every exception raised inside the try block is handled by the
force-click fallback, so the function is total: one outcome per call, never a
raised error.  When the recheck after scrolling reports not-clickable the
message reason is the literal "Not clickable" (the recheck result is a plain
boolean, so the reason of the first check record is not consulted). -/
def clickRun (env : ClickEnv) (sel : String) : String × List ClickStep :=
  if env.queryThrows then
    clickForcePath env sel env.queryErr [ClickStep.resolve]
  else
    match env.queryResult with
    | none => ("Element not found: " ++ sel, [ClickStep.resolve])
    | some _ =>
      if env.check1Throws then
        clickForcePath env sel env.check1Err
          [ClickStep.resolve, ClickStep.checkClickable]
      else if env.check1Clickable then
        clickDirectPath env sel [ClickStep.resolve, ClickStep.checkClickable]
      else if env.scrollThrows then
        clickForcePath env sel env.scrollErr
          [ClickStep.resolve, ClickStep.checkClickable, ClickStep.scrollRecheck]
      else if env.check2Throws then
        clickForcePath env sel env.check2Err
          [ClickStep.resolve, ClickStep.checkClickable, ClickStep.scrollRecheck]
      else if env.check2 then
        clickDirectPath env sel
          [ClickStep.resolve, ClickStep.checkClickable, ClickStep.scrollRecheck]
      else
        ("Element not clickable: " ++ sel ++ " - Not clickable",
         [ClickStep.resolve, ClickStep.checkClickable, ClickStep.scrollRecheck])

/-- Session-level click: with no live page the source raises RuntimeError
(modelled as `Except.error`); with a live page the ladder body runs and
always returns a value. -/
def sessionClick (page : Option ClickEnv) (sel : String) :
    Except String (String × List ClickStep) :=
  match page with
  | none => Except.error "Browser not started. Call start_browser first."
  | some env => Except.ok (clickRun env sel)

/-- The `click_element` tool wrapper (mcp_server.py): any exception escaping
`session.click` is converted into an error string, so the caller always
receives a message. -/
def click_element (page : Option ClickEnv) (sel : String) : String :=
  match sessionClick page sel with
  | Except.ok (msg, _) => msg
  | Except.error e => "Error clicking " ++ sel ++ ": " ++ e

/-- Behaviour of the page during one `BrowserSession.goto` call: whether the
navigation itself (goto with wait_until domcontentloaded) throws, whether the
network-idle wait times out, and whether the lazy-load scroll evaluations
throw. -/
structure GotoEnv where
  gotoThrows : Bool
  gotoErr : String
  networkIdleTimesOut : Bool
  scrollEvalThrows : Bool
  scrollEvalErr : String
deriving Repr, DecidableEq

/-- Embedding of the body of `BrowserSession.goto` (mcp_server.py).  The
network-idle wait is wrapped in its own try block whose handler is `pass`,
so `networkIdleTimesOut` never influences the result; every other exception
reaches the outer handler, which still returns a message rather than
raising. -/
def gotoRun (env : GotoEnv) (url : String) : String :=
  if env.gotoThrows then
    "Navigation completed with warnings: " ++ env.gotoErr
  else
    -- wait_for_timeout(2000); then
    -- try: wait_for_load_state("networkidle", timeout=10000) except Exception: pass
    -- the timeout is swallowed regardless of env.networkIdleTimesOut
    if env.scrollEvalThrows then
      "Navigation completed with warnings: " ++ env.scrollEvalErr
    else
      "Navigated to " ++ url

/-- State of the global `BrowserSession` (mcp_server.py): the three lifecycle
handles.  Handle identities are modelled as opaque numeric tokens. -/
structure BrowserState where
  playwright : Option Nat
  browser : Option Nat
  page : Option Nat
deriving Repr, DecidableEq

/-- Fresh handles that `async_playwright().start()`, `chromium.launch(...)`
and `browser.new_page()` would produce if called during one `start`. -/
structure HandleSupply where
  newPlaywright : Nat
  newBrowser : Nat
  newPage : Nat
deriving Repr, DecidableEq

/-- Embedding of `BrowserSession.start` (mcp_server.py): each of the three
handles is created only when its field is `None`; page creation additionally
installs the user agent header and the init script, which does not touch the
session state.  The call always returns the status string "Browser started.". -/
def sessionStart (sup : HandleSupply) (s : BrowserState) : BrowserState × String :=
  let s1 := if s.playwright.isNone then { s with playwright := some sup.newPlaywright } else s
  let s2 := if s1.browser.isNone then { s1 with browser := some sup.newBrowser } else s1
  let s3 := if s2.page.isNone then { s2 with page := some sup.newPage } else s2
  (s3, "Browser started.")

/-- JS `table[k] || d` for a numeric lookup table: both a missing key and the
stored value `0` are falsy, so a table entry of `0` is replaced by the
default `d`. -/
def jsNumOr (v : Option Nat) (d : Nat) : Nat :=
  match v with
  | some n => if n = 0 then d else n
  | none => d

/-- One entry pushed by the clickable-element enumerator
(`get_clickable_elements`, mcp_server.py). -/
structure ClickEntry where
  text : String
  selector : String
  tag : String
  type : Option String
  href : Option String
deriving Repr, DecidableEq

/-- Display text of a clickable candidate: trimmed text content, else the
value / placeholder / aria-label / title / alt fallback chain, else
"[No text]"; truncated to 77 characters plus an ellipsis when longer than
80. -/
def clickDisplayText (el : Element) : String :=
  let t0 := (el.textContent.map jsTrim).getD ""
  let t1 :=
    if t0 = "" then
      jsOrStr el.valueProp (jsOrStr el.placeholder
        (jsOr el.ariaLabel (jsOr el.titleAttr (jsOr el.altAttr "[No text]"))))
    else t0
  if t1.length > 80 then jsTake t1 77 ++ "..." else t1

/-- JS `el.href || el.getAttribute("href")`: the absolutized property wins
unless it is falsy. -/
def hrefJs (el : Element) : Option String :=
  match el.hrefProp with
  | some h => if h = "" then el.hrefAttr else some h
  | none => el.hrefAttr

/-- The href field of a clickable entry:
`href && href.length > 50 ? href.substring(0, 47) + "..." : href`. -/
def clickHrefOut (el : Element) : Option String :=
  match hrefJs el with
  | some h => if h ≠ "" ∧ h.length > 50 then some (jsTake h 47 ++ "...") else some h
  | none => none

/-- The record pushed for one clickable candidate:
`{text, selector, tag, type: el.type || null, href}`. -/
def clickEntryOf (esc : String → String) (el : Element) : ClickEntry :=
  { text := clickDisplayText el
    selector := MCPGetSelector esc el
    tag := jsToLower el.tagName
    type := match el.jsType with
      | some t => if t = "" then none else some t
      | none => none
    href := clickHrefOut el }

/-- The scan loop of `get_clickable_elements`: keep `MCPIsClickable`
candidates, deduplicate on the composite key `selector + "|" + textContent`
(a seen-set accumulated left to right). -/
def clickableScan (w : Window) (rx : String → Bool) (esc : String → String) :
    List Element → List String → List ClickEntry
  | [], _ => []
  | el :: rest, seen =>
    if ¬ MCPIsClickable w rx el then clickableScan w rx esc rest seen
    else
      let entry := clickEntryOf esc el
      let key := entry.selector ++ "|" ++ entry.text
      if key ∈ seen then clickableScan w rx esc rest seen
      else entry :: clickableScan w rx esc rest (key :: seen)

/-- Tag priority of the clickable-element sort: buttons first, then links,
then inputs, then everything else. -/
def clickTagPriority (t : String) : Nat :=
  if t = "button" then 0 else if t = "a" then 1 else if t = "input" then 2 else 3

/-- The comparator of `get_clickable_elements` read as a total preorder:
`cmp(a,b) ≤ 0` iff tag priority is smaller, or equal priority and shorter or
equal display text. -/
def clickLe (a b : ClickEntry) : Bool :=
  if clickTagPriority a.tag = clickTagPriority b.tag then
    a.text.length ≤ b.text.length
  else clickTagPriority a.tag ≤ clickTagPriority b.tag

/-- Full clickable-element enumeration (scan over the candidate list produced
by the document query, then the stable ascending sort). -/
def clickableEnum (w : Window) (rx : String → Bool) (esc : String → String)
    (els : List Element) : List ClickEntry :=
  List.insertionSort (fun a b => clickLe a b = true) (clickableScan w rx esc els [])

/-- One entry pushed by the form-field enumerator (`get_form_elements`,
mcp_server.py). -/
structure FormEntry where
  selector : String
  tag : String
  type : String
  name : String
  id : String
  label : String
  placeholder : String
  value : String
  required : Bool
  maxLength : Option Int
  form : String
  options : List (String × String)
  isSelect : Bool
  isTextarea : Bool
  isContentEditable : Bool
deriving Repr, DecidableEq

/-- Label resolution of the form enumerator, in source priority order:
a label element with a matching for attribute, else an enclosing label
element, else aria-label / title / data-label. -/
def labelResolve (el : Element) : String :=
  let l0 :=
    if el.id ≠ "" then
      match el.labelForEl with
      | some tc => (tc.map jsTrim).getD ""
      | none => ""
    else ""
  let l1 :=
    if l0 = "" then
      match el.parentLabelEl with
      | some tc => (tc.map jsTrim).getD ""
      | none => ""
    else l0
  if l1 = "" then jsOr el.ariaLabel (jsOr el.titleAttr (jsOr el.dataLabel "")) else l1

/-- The record pushed for one form field. -/
def formEntryOf (esc : String → String) (el : Element) : FormEntry :=
  let tagName := jsToLower el.tagName
  let inputType := jsOr el.jsType "text"
  { selector := MCPGetSelector esc el
    tag := tagName
    type := inputType
    name := el.nameAttr
    id := el.id
    label := labelResolve el
    placeholder := el.placeholder
    value := el.valueProp
    required := el.required
    maxLength := if el.maxLength > 0 then some el.maxLength else none
    form := match el.closestForm with
      | some (n, i) => jsOrStr n (jsOrStr i "unnamed")
      | none => "no-form"
    options := if tagName = "select" then
        el.options.map (fun o => (o.value, jsOr (o.textContent.map jsTrim) o.value))
      else []
    isSelect := tagName = "select"
    isTextarea := tagName = "textarea"
    isContentEditable := el.contentEditable = "true" }

/-- The scan loop of `get_form_elements`: skip zero-size, hidden,
disabled/readonly and out-of-viewport elements, then deduplicate on the
composite key `selector + "|" + inputType + "|" + name`. -/
def formScan (w : Window) (esc : String → String) :
    List Element → List String → List FormEntry
  | [], _ => []
  | el :: rest, seen =>
    if el.rectW ≤ 0 ∨ el.rectH ≤ 0 then formScan w esc rest seen
    else if el.visibility = "hidden" ∨ el.display = "none" then formScan w esc rest seen
    else if el.disabled ∨ el.readOnly then formScan w esc rest seen
    else if el.rectBottom < 0 ∨ el.rectTop > w.innerHeight then formScan w esc rest seen
    else if el.rectRight < 0 ∨ el.rectLeft > w.innerWidth then formScan w esc rest seen
    else
      let entry := formEntryOf esc el
      let key := entry.selector ++ "|" ++ entry.type ++ "|" ++ entry.name
      if key ∈ seen then formScan w esc rest seen
      else entry :: formScan w esc rest (key :: seen)

/-- The input-type priority table of the form sort.  The JS lookup is
`typePriority[a.type] || 20`, and the stored priority of "email" is `0` —
falsy — so email fields effectively get the default 20 (kept faithfully via
`jsNumOr`). -/
def formTypePriorityTable (t : String) : Option Nat :=
  if t = "email" then some 0 else if t = "text" then some 1
  else if t = "password" then some 2 else if t = "search" then some 3
  else if t = "tel" then some 4 else if t = "url" then some 5
  else if t = "number" then some 6 else if t = "date" then some 7
  else if t = "time" then some 8 else if t = "textarea" then some 9
  else if t = "select" then some 10 else none

/-- The comparator of the form sort read as a total preorder: required fields
first, then form group (localeCompare modelled as code-point string order),
then input-type priority. -/
def formLe (a b : FormEntry) : Bool :=
  if a.required ∧ ¬ b.required then true
  else if ¬ a.required ∧ b.required then false
  else if a.form ≠ b.form then a.form ≤ b.form
  else jsNumOr (formTypePriorityTable a.type) 20 ≤ jsNumOr (formTypePriorityTable b.type) 20

/-- Full form-field enumeration. -/
def formEnum (w : Window) (esc : String → String) (els : List Element) :
    List FormEntry :=
  List.insertionSort (fun a b => formLe a b = true) (formScan w esc els [])

/-- One entry pushed by the text enumerator (`get_text_elements_data`,
minimal_client.py). -/
structure TextEntry where
  text : String
  selector : String
  tag : String
  length : Nat
deriving Repr, DecidableEq

/-- The tag priority table of the text sort
(`{h1: 0, h2: 1, h3: 2, h4: 3, h5: 4, h6: 5, p: 6, div: 10}`). -/
def textTagPriorityTable (t : String) : Option Nat :=
  if t = "h1" then some 0 else if t = "h2" then some 1
  else if t = "h3" then some 2 else if t = "h4" then some 3
  else if t = "h5" then some 4 else if t = "h6" then some 5
  else if t = "p" then some 6 else if t = "div" then some 10 else none

/-- Effective text-sort priority: `tagPriority[a.tag] || 20`.  The table
value of h1 is `0`, which is falsy in JS, so h1 effectively gets the default
priority 20 — the same bucket as unlisted tags. -/
def textPriority (t : String) : Nat :=
  jsNumOr (textTagPriorityTable t) 20

/-- The comparator of the text sort read as a total preorder. -/
def textLe (a b : TextEntry) : Bool :=
  if textPriority a.tag = textPriority b.tag then a.length ≤ b.length
  else textPriority a.tag ≤ textPriority b.tag

/-- The sort relation of the text enumerator as a proposition (for the
Mathlib insertion sort). -/
def textLeProp (a b : TextEntry) : Prop := textLe a b = true

instance : DecidableRel textLeProp := fun a b => by
  unfold textLeProp
  infer_instance

/-- The scan loop of `get_text_elements_data`: trimmed text of length in
[5, 500], deduplicated by exact text (note: the seen-set is extended BEFORE
the visibility test, exactly as in the source), visible by positive box and
style. -/
def textScan (esc : String → String) :
    List Element → List String → List TextEntry
  | [], _ => []
  | el :: rest, seen =>
    match el.textContent with
    | none => textScan esc rest seen
    | some raw =>
      let t := jsTrim raw
      if t.length < 5 then textScan esc rest seen
      else if t.length > 500 then textScan esc rest seen
      else if t ∈ seen then textScan esc rest seen
      else
        let seen1 := t :: seen
        if el.rectW ≤ 0 ∨ el.rectH ≤ 0 then textScan esc rest seen1
        else if el.visibility = "hidden" ∨ el.display = "none" then textScan esc rest seen1
        else
          { text := t
            selector := MCPGetSelector esc el
            tag := jsToLower el.tagName
            length := t.length } :: textScan esc rest seen1

/-- Full text enumeration: scan, stable ascending sort by (priority, length),
capped at 50 entries (`result.slice(0, 50)`). -/
def textEnum (esc : String → String) (els : List Element) : List TextEntry :=
  (List.insertionSort textLeProp (textScan esc els [])).take 50

/-- A concrete window for witnesses. -/
def w0 : Window := { innerWidth := 600, innerHeight := 800 }

/-- A concrete interactive-class regex oracle for witnesses (no class
matches). -/
def rx0 : String → Bool := fun _ => false

/-- A concrete escape function for witnesses (identity, a sound stand-in for
CSS.escape on strings that need no escaping). -/
def escId : String → String := fun s => s

/-- C1: if the classifier reports visible=false then it also reports
clickable=false, and the fill-path fillability result is false whenever its
visibility check is false. -/
theorem C1_invisible_never_interactive (w : Window) (rx : String → Bool) (el : Element) :
    (MCPIsVisible w el = false → MCPIsClickable w rx el = false) ∧
    ((fillEval el).visible = false → (fillEval el).fillable = false) := by
  constructor
  · intro h
    unfold MCPIsClickable
    simp [h]
  · intro h
    simp only [fillEval] at h ⊢
    rw [h]
    simp

/-- Witness for C1 at a concrete zero-size element. -/
theorem C1_invisible_never_interactive_witness :
    MCPIsClickable w0 rx0 blankElement = false ∧
    (fillEval blankElement).fillable = false :=
  ⟨(C1_invisible_never_interactive w0 rx0 blankElement).1 (by decide),
   (C1_invisible_never_interactive w0 rx0 blankElement).2 (by decide)⟩

/-- C3: an unresolvable locator makes the click operation return the
structured message "Element not found: locator"; the session wrapper never
surfaces an exception for it. -/
theorem C3_click_not_found (env : ClickEnv) (sel : String)
    (hq : env.queryThrows = false) (hr : env.queryResult = none) :
    clickRun env sel = ("Element not found: " ++ sel, [ClickStep.resolve]) ∧
    click_element (some env) sel = "Element not found: " ++ sel := by
  have h1 : clickRun env sel = ("Element not found: " ++ sel, [ClickStep.resolve]) := by
    unfold clickRun
    rw [hq, hr]
    simp
  refine ⟨h1, ?_⟩
  simp [click_element, sessionClick, h1]

/-- A concrete click environment in which the locator resolves to nothing. -/
def envNotFound : ClickEnv where
  queryThrows := false
  queryErr := ""
  queryResult := none
  check1Throws := false
  check1Err := ""
  check1Clickable := false
  scrollThrows := false
  scrollErr := ""
  check2Throws := false
  check2Err := ""
  check2 := false
  directThrows := false
  directErr := ""
  forceThrows := false

/-- Witness for C3: clicking "#missing" on a page lacking it yields exactly
the message of the claim. -/
theorem C3_click_not_found_witness :
    click_element (some envNotFound) "#missing" = "Element not found: #missing" :=
  (C3_click_not_found envNotFound "#missing" rfl rfl).2

/-- Well-formedness of a ladder trace: it is a sublist of the canonical
forward order (hence each step occurs at most once, in order) and has no
duplicates. -/
def ladderOk (tr : List ClickStep) : Prop :=
  tr.Sublist clickLadder ∧ tr.Nodup

instance (tr : List ClickStep) : Decidable (ladderOk tr) := by
  unfold ladderOk
  infer_instance

/-- C4: the click ladder is forward-only and terminating — for every page
behaviour the trace of attempted steps is a sublist of the canonical ladder
(so each of clickability check, scroll-and-recheck, direct click and force
click is attempted at most once, in ladder order, with no loop), and the
executor, being a total function, returns exactly one outcome. -/
theorem C4_click_ladder_forward_only (env : ClickEnv) (sel : String) :
    ladderOk (clickRun env sel).2 := by
  rcases env with ⟨qt, qe, qr, c1t, c1e, c1c, st, se, c2t, c2e, c2, dt, de, ft⟩
  cases qt <;> cases qr <;> cases c1t <;> cases c1c <;> cases st <;>
    cases c2t <;> cases c2 <;> cases dt <;> cases ft <;>
    simp only [clickRun, clickForcePath, clickDirectPath, Bool.false_eq_true,
      if_false, if_true, ite_false, ite_true] <;> decide

/-- C7: the network-idle wait inside navigation is best-effort — its timeout
never changes the result, and when the rest of the navigation succeeds the
reported status is "Navigated to url" even though network idle was never
reached. -/
theorem C7_network_idle_swallowed (env : GotoEnv) (url : String) :
    (env.gotoThrows = false → env.scrollEvalThrows = false →
      gotoRun env url = "Navigated to " ++ url) ∧
    (∀ b : Bool, gotoRun { env with networkIdleTimesOut := b } url = gotoRun env url) := by
  constructor
  · intro h1 h2
    unfold gotoRun
    rw [h1, h2]
    simp
  · intro b
    unfold gotoRun
    rfl

/-- A concrete navigation environment whose page never reaches network
idle. -/
def envNoIdle : GotoEnv where
  gotoThrows := false
  gotoErr := ""
  networkIdleTimesOut := true
  scrollEvalThrows := false
  scrollEvalErr := ""

/-- Witness for C7 at a page that never reaches network idle. -/
theorem C7_network_idle_swallowed_witness :
    gotoRun envNoIdle "https://example.com" = "Navigated to https://example.com" :=
  (C7_network_idle_swallowed envNoIdle "https://example.com").1 rfl rfl

/-- C10: start is idempotent on an already-started session — a second start
call (even with a fresh handle supply) creates nothing, leaves all three
handles unchanged, and returns "Browser started." again. -/
theorem C10_start_idempotent (s : BrowserState) (sup1 sup2 : HandleSupply) :
    sessionStart sup2 (sessionStart sup1 s).1 = ((sessionStart sup1 s).1, "Browser started.") := by
  rcases s with ⟨p, b, pg⟩
  cases p <;> cases b <;> cases pg <;> rfl

/-- A fully visible element except that its computed opacity is "0": the
classifier rejects it, the page-info count accepts it. -/
def exOpacityZero : Element :=
  { blankElement with
    rectW := 10, rectH := 10, rectBottom := 10, rectRight := 10,
    opacity := "0", topElemIsSelf := true }

/-- C8 counterexample: the page-info visible count does NOT use the same
visibility predicate as the classifier — an opacity-0 element is counted
visible by `get_page_info` while `MCPIsVisible` reports false (the snapshot
check also ignores viewport intersection and occlusion). -/
theorem C8_counterexample :
    pageInfoVisible exOpacityZero = true ∧ MCPIsVisible w0 exOpacityZero = false := by
  decide

/-- C8 amended: the page-info visible count uses a strictly weaker predicate
(positive box, visibility not hidden, display not none); every element the
classifier reports visible is counted visible, but not conversely. -/
theorem C8_pageinfo_visible_weaker (w : Window) (el : Element)
    (h : MCPIsVisible w el = true) : pageInfoVisible el = true := by
  unfold MCPIsVisible at h
  split_ifs at h with h1 h2 h3 h4 h5 h6
  push_neg at h1
  simp only [pageInfoVisible, Bool.and_eq_true, decide_eq_true_eq]
  refine ⟨⟨⟨by omega, by omega⟩, h2⟩, h3⟩

/-- Witness for C8 amended: a classifier-visible element is snapshot-visible. -/
def exVisible : Element :=
  { blankElement with
    rectW := 10, rectH := 10, rectBottom := 10, rectRight := 10,
    topElemIsSelf := true }

/-- Witness for the amended C8 theorem at a concrete visible element. -/
theorem C8_pageinfo_visible_weaker_witness : pageInfoVisible exVisible = true :=
  C8_pageinfo_visible_weaker w0 exVisible (by decide)

/-- An element whose id attribute is non-empty but all whitespace. -/
def exWhitespaceId : Element := { blankElement with id := " " }

/-- C6 counterexample: the id strategy requires the id to be non-empty AFTER
trimming — for the element with id " " the synthesizer falls through to the
bare tag name instead of returning an id selector. -/
theorem C6_counterexample :
    exWhitespaceId.id ≠ "" ∧
    MCPGetSelector escId exWhitespaceId = "div" ∧
    MCPGetSelector escId exWhitespaceId ≠ "#" ++ escId exWhitespaceId.id := by
  decide

/-- C6 amended: for every element whose id is non-empty and not
whitespace-only, the synthesizer returns "#" followed by the escaped id,
taking priority over every other strategy. -/
theorem C6_id_priority (esc : String → String) (el : Element)
    (h1 : el.id ≠ "") (h2 : jsTrim el.id ≠ "") :
    MCPGetSelector esc el = "#" ++ esc el.id := by
  simp [MCPGetSelector, h1, h2]

/-- An element with a regular id, for the C6 witness. -/
def exIdEl : Element := { blankElement with id := "login", className := some "btn primary" }

/-- Witness for the amended C6 theorem: the id wins over the class strategy. -/
theorem C6_id_priority_witness : MCPGetSelector escId exIdEl = "#login" :=
  C6_id_priority escId exIdEl (by decide) (by decide)

/-- Boolean restructuring relating the source fillability expression
(visible AND fillable-kind AND not-disabled) to the specification form
(visible AND not-disabled AND fillable-kind, disjuncts reordered). -/
theorem bool_and_or_shuffle (v d t i c : Bool) :
    (v && (i || t || c) && !d) = (v && !d && (t || i || c)) := by
  cases v <;> cases d <;> cases t <;> cases i <;> cases c <;> rfl

/-- The fillability predicate exactly as claim C2 words it: visible, not
disabled/readonly, and textarea, or input with type in the text-like set
including "datetime" (not "datetime-local"), or content-editable, or select,
or checkbox/radio. -/
def fillableClaimC2 (el : Element) : Bool :=
  let tagName := jsToLower el.tagName
  let inputType := jsOr el.jsType "text"
  let visible := el.rectW > 0 && el.rectH > 0 &&
    el.visibility ≠ "hidden" && el.display ≠ "none"
  visible && !(el.disabled || el.readOnly) &&
    (tagName = "textarea" ||
     (tagName = "input" &&
       ["text", "email", "password", "search", "tel", "url", "number",
        "date", "time", "datetime", "month", "week"].contains inputType) ||
     el.contentEditable = "true" ||
     tagName = "select" ||
     (tagName = "input" && (inputType = "checkbox" || inputType = "radio")))

/-- The fillability predicate as corrected from the source: same visibility
and disabled gating, but the fillable kinds are textarea, text-like input
(with "datetime-local", not "datetime") and content-editable only — select
and checkbox/radio are NOT classified fillable. -/
def fillableAmendedC2 (el : Element) : Bool :=
  let tagName := jsToLower el.tagName
  let inputType := jsOr el.jsType "text"
  let isContentEditable := el.contentEditable = "true"
  let visible := el.rectW > 0 && el.rectH > 0 &&
    el.visibility ≠ "hidden" && el.display ≠ "none"
  let fillableTypes := ["text", "email", "password", "search", "tel", "url",
    "number", "date", "time", "datetime-local", "month", "week"]
  visible && !(el.disabled || el.readOnly) &&
    (tagName = "textarea" ||
     (tagName = "input" && fillableTypes.contains inputType) ||
     isContentEditable)

/-- A visible, enabled select element. -/
def exSelect : Element :=
  { blankElement with
    tagName := "SELECT", jsType := some "select-one",
    rectW := 10, rectH := 10, rectBottom := 10, rectRight := 10 }

/-- C2 counterexample: a visible enabled select is fillable per the claim but
not per the code — the fill-path classifier has no select (or checkbox/radio)
disjunct. -/
theorem C2_counterexample :
    fillableClaimC2 exSelect = true ∧ (fillEval exSelect).fillable = false := by
  decide

/-- C2 amended: the fill-path classifier marks an element fillable exactly
when it is visible, not disabled/readonly, and is a textarea, an input whose
type is in the text-like set with "datetime-local", or content-editable. -/
theorem C2_fillable_characterization (el : Element) :
    (fillEval el).fillable = fillableAmendedC2 el := by
  unfold fillEval fillableAmendedC2
  exact bool_and_or_shuffle _ _ _ _ _

/-- Keys produced by the clickable-enumerator scan are pairwise distinct and
avoid the seen-set. -/
theorem clickableScan_key_nodup (w : Window) (rx : String → Bool)
    (esc : String → String) (els : List Element) (seen : List String) :
    (clickableScan w rx esc els seen).Pairwise
      (fun a b => a.selector ++ "|" ++ a.text ≠ b.selector ++ "|" ++ b.text) ∧
    ∀ e ∈ clickableScan w rx esc els seen,
      (e.selector ++ "|" ++ e.text) ∉ seen := by
  induction els generalizing seen with
  | nil => simp [clickableScan]
  | cons el rest ih =>
    simp only [clickableScan]
    split_ifs with hc hk
    all_goals try exact ih seen
    obtain ⟨ihp, ihm⟩ := ih (((clickEntryOf esc el).selector ++ "|" ++
      (clickEntryOf esc el).text) :: seen)
    refine ⟨List.Pairwise.cons ?_ ihp, ?_⟩
    · intro b hb
      have hbk := ihm b hb
      intro hEq
      exact hbk (hEq ▸ List.mem_cons_self _ _)
    · intro e he
      rcases List.mem_cons.mp he with rfl | he
      · exact hk
      · intro hs
        exact ihm e he (List.mem_cons_of_mem _ hs)

/-- Keys produced by the form-enumerator scan are pairwise distinct and avoid
the seen-set. -/
theorem formScan_key_nodup (w : Window) (esc : String → String)
    (els : List Element) (seen : List String) :
    (formScan w esc els seen).Pairwise
      (fun a b => a.selector ++ "|" ++ a.type ++ "|" ++ a.name ≠
        b.selector ++ "|" ++ b.type ++ "|" ++ b.name) ∧
    ∀ e ∈ formScan w esc els seen,
      (e.selector ++ "|" ++ e.type ++ "|" ++ e.name) ∉ seen := by
  induction els generalizing seen with
  | nil => simp [formScan]
  | cons el rest ih =>
    simp only [formScan]
    split_ifs with hf1 hf2 hf3 hf4 hf5 hk
    all_goals try exact ih seen
    obtain ⟨ihp, ihm⟩ := ih (((formEntryOf esc el).selector ++ "|" ++
      (formEntryOf esc el).type ++ "|" ++ (formEntryOf esc el).name) :: seen)
    refine ⟨List.Pairwise.cons ?_ ihp, ?_⟩
    · intro b hb
      have hbk := ihm b hb
      intro hEq
      exact hbk (hEq ▸ List.mem_cons_self _ _)
    · intro e he
      rcases List.mem_cons.mp he with rfl | he
      · exact hk
      · intro hs
        exact ihm e he (List.mem_cons_of_mem _ hs)

/-- Two identical-looking buttons except for their display text. -/
def exBtnSave : Element :=
  { blankElement with
    tagName := "BUTTON", className := some "submitbtn",
    textContent := some "Save",
    rectW := 10, rectH := 10, rectBottom := 10, rectRight := 10,
    topElemIsSelf := true }

/-- A second button with the same synthesized locator but different text. -/
def exBtnDel : Element :=
  { blankElement with
    tagName := "BUTTON", className := some "submitbtn",
    textContent := some "Del",
    rectW := 10, rectH := 10, rectBottom := 10, rectRight := 10,
    topElemIsSelf := true }

/-- Two text inputs with the same synthesized locator (a shared class), the
same resolved label text, but different name attributes. -/
def exFormUser1 : Element :=
  { blankElement with
    tagName := "INPUT", jsType := some "text", className := some "loginfield",
    nameAttr := "user1", ariaLabel := some "User",
    rectW := 10, rectH := 10, rectBottom := 10, rectRight := 10 }

/-- The second such input (name "user2"). -/
def exFormUser2 : Element :=
  { blankElement with
    tagName := "INPUT", jsType := some "text", className := some "loginfield",
    nameAttr := "user2", ariaLabel := some "User",
    rectW := 10, rectH := 10, rectBottom := 10, rectRight := 10 }

/-- C5 counterexample: the form-field enumerator does NOT deduplicate by
(locator, displayText) — two fields with identical locator and identical
label but different name attributes yield TWO entries (the key is
locator|type|name), contradicting the claim that identical locator and
identical text produce one entry in every enumerator. -/
theorem C5_counterexample :
    (formEnum w0 escId [exFormUser1, exFormUser2]).map
      (fun e => (e.selector, e.label)) =
      [(".loginfield", "User"), (".loginfield", "User")] := by
  decide

/-- C5 amended: the clickable enumerator deduplicates by the composite key
(locator, displayText) — same locator with different text yields several
entries, identical locator and text collapse to one — while the form-field
enumerator deduplicates by (locator, inputType, name) instead. -/
theorem C5_enumerator_dedup :
    (∀ (w : Window) (rx : String → Bool) (esc : String → String) (els : List Element),
      (clickableEnum w rx esc els).Pairwise
        (fun a b => ¬ (a.selector = b.selector ∧ a.text = b.text))) ∧
    (∀ (w : Window) (esc : String → String) (els : List Element),
      (formEnum w esc els).Pairwise
        (fun a b => ¬ (a.selector = b.selector ∧ a.type = b.type ∧ a.name = b.name))) ∧
    (clickableEnum w0 rx0 escId [exBtnSave, exBtnDel]).map
      (fun e => (e.selector, e.text)) =
      [(".submitbtn", "Del"), (".submitbtn", "Save")] := by
  refine ⟨?_, ?_, by decide⟩
  · intro w rx esc els
    have hsym : Symmetric (fun a b : ClickEntry =>
        ¬ (a.selector = b.selector ∧ a.text = b.text)) := by
      intro a b hab ⟨e1, e2⟩
      exact hab ⟨e1.symm, e2.symm⟩
    have hscan : (clickableScan w rx esc els []).Pairwise
        (fun a b => ¬ (a.selector = b.selector ∧ a.text = b.text)) := by
      refine (clickableScan_key_nodup w rx esc els []).1.imp ?_
      intro a b hab hEq
      exact hab (by rw [hEq.1, hEq.2])
    exact ((List.perm_insertionSort _ _).pairwise_iff (fun {x y} h => hsym h)).mpr hscan
  · intro w esc els
    have hsym : Symmetric (fun a b : FormEntry =>
        ¬ (a.selector = b.selector ∧ a.type = b.type ∧ a.name = b.name)) := by
      intro a b hab ⟨e1, e2, e3⟩
      exact hab ⟨e1.symm, e2.symm, e3.symm⟩
    have hscan : (formScan w esc els []).Pairwise
        (fun a b => ¬ (a.selector = b.selector ∧ a.type = b.type ∧ a.name = b.name)) := by
      refine (formScan_key_nodup w esc els []).1.imp ?_
      intro a b hab hEq
      exact hab (by rw [hEq.1, hEq.2.1, hEq.2.2])
    exact ((List.perm_insertionSort _ _).pairwise_iff (fun {x y} h => hsym h)).mpr hscan

/-- A visible h1 heading element. -/
def exH1 : Element :=
  { blankElement with
    tagName := "H1", textContent := some "Heading One!",
    rectW := 10, rectH := 10, rectBottom := 10, rectRight := 10 }

/-- A visible h2 heading element. -/
def exH2 : Element :=
  { blankElement with
    tagName := "H2", textContent := some "Second head!",
    rectW := 10, rectH := 10, rectBottom := 10, rectRight := 10 }

/-- C9 divergence exhibit: the text enumerator orders an h2 heading BEFORE an
h1 heading, because the JS priority lookup `tagPriority[a.tag] || 20`
discards the stored h1 priority 0 (falsy), giving h1 the default priority 20
— the tag-priority table itself records the intent that h1 sorts first. -/
theorem C9_h1_priority_bug :
    (textEnum escId [exH1, exH2]).map (fun e => e.tag) = ["h2", "h1"] ∧
    textTagPriorityTable "h1" = some 0 ∧ textPriority "h1" = 20 := by
  decide

/-- Witness for the amended C5 theorem: the clickable-enumerator dedup
property instantiated at the two same-locator buttons. -/
theorem C5_enumerator_dedup_witness :
    (clickableEnum w0 rx0 escId [exBtnSave, exBtnDel]).Pairwise
      (fun a b => ¬ (a.selector = b.selector ∧ a.text = b.text)) :=
  C5_enumerator_dedup.1 w0 rx0 escId [exBtnSave, exBtnDel]
